import Mathlib

set_option maxRecDepth 40000

/-!
Verification of the conversation-state and code-block-extraction core of
the ClaudeChatbot application (src/app.py).

The extractor models the regex scan in ClaudeChatbot.extract_code_blocks,
which runs re.finditer over the pattern

  triple-backtick, optional word-character run, newline,
  non-greedy body, triple-backtick

with DOTALL, left to right, non-overlapping, resuming after each match.
Strings are modelled as lists of characters.  The word class of the
pattern and the whitespace class of str.strip are Unicode predicates;
both are carried as explicit code-point interval tables generated from
the runtime the program runs on, so the model agrees with the program on
every character.

The session model mirrors st.session_state: a message log, an API key, a
parameter record and the is_loading flag, with the chat-input submission
block, process_response, the clear button and save_chat_history embedded
as pure transition functions.  The outcome of the external completion
call is passed to process_response as an explicit argument.
-/

namespace App

/-- Backtick character (U+0060). -/
def bt : Char := Char.ofNat 96

/-- Membership of a character's code point in an interval table. -/
def inRanges (rs : List (Nat × Nat)) (c : Char) : Bool :=
  rs.any (fun p => decide (p.1 ≤ c.toNat) && decide (c.toNat ≤ p.2))

/-- Interval table of the Unicode word characters: the code points the
pattern's word class matches for text patterns (Unicode alphanumerics
and the underscore), taken verbatim from the regex engine the program
runs on. -/
def wordRanges : List (Nat × Nat) :=
  [
    (48, 57), (65, 90), (95, 95), (97, 122), (170, 170), (178, 179),
    (181, 181), (185, 186), (188, 190), (192, 214), (216, 246), (248, 705),
    (710, 721), (736, 740), (748, 748), (750, 750), (880, 884), (886, 887),
    (890, 893), (895, 895), (902, 902), (904, 906), (908, 908), (910, 929),
    (931, 1013), (1015, 1153), (1162, 1327), (1329, 1366), (1369, 1369), (1376, 1416),
    (1488, 1514), (1519, 1522), (1568, 1610), (1632, 1641), (1646, 1647), (1649, 1747),
    (1749, 1749), (1765, 1766), (1774, 1788), (1791, 1791), (1808, 1808), (1810, 1839),
    (1869, 1957), (1969, 1969), (1984, 2026), (2036, 2037), (2042, 2042), (2048, 2069),
    (2074, 2074), (2084, 2084), (2088, 2088), (2112, 2136), (2144, 2154), (2160, 2183),
    (2185, 2190), (2208, 2249), (2308, 2361), (2365, 2365), (2384, 2384), (2392, 2401),
    (2406, 2415), (2417, 2432), (2437, 2444), (2447, 2448), (2451, 2472), (2474, 2480),
    (2482, 2482), (2486, 2489), (2493, 2493), (2510, 2510), (2524, 2525), (2527, 2529),
    (2534, 2545), (2548, 2553), (2556, 2556), (2565, 2570), (2575, 2576), (2579, 2600),
    (2602, 2608), (2610, 2611), (2613, 2614), (2616, 2617), (2649, 2652), (2654, 2654),
    (2662, 2671), (2674, 2676), (2693, 2701), (2703, 2705), (2707, 2728), (2730, 2736),
    (2738, 2739), (2741, 2745), (2749, 2749), (2768, 2768), (2784, 2785), (2790, 2799),
    (2809, 2809), (2821, 2828), (2831, 2832), (2835, 2856), (2858, 2864), (2866, 2867),
    (2869, 2873), (2877, 2877), (2908, 2909), (2911, 2913), (2918, 2927), (2929, 2935),
    (2947, 2947), (2949, 2954), (2958, 2960), (2962, 2965), (2969, 2970), (2972, 2972),
    (2974, 2975), (2979, 2980), (2984, 2986), (2990, 3001), (3024, 3024), (3046, 3058),
    (3077, 3084), (3086, 3088), (3090, 3112), (3114, 3129), (3133, 3133), (3160, 3162),
    (3165, 3165), (3168, 3169), (3174, 3183), (3192, 3198), (3200, 3200), (3205, 3212),
    (3214, 3216), (3218, 3240), (3242, 3251), (3253, 3257), (3261, 3261), (3293, 3294),
    (3296, 3297), (3302, 3311), (3313, 3314), (3332, 3340), (3342, 3344), (3346, 3386),
    (3389, 3389), (3406, 3406), (3412, 3414), (3416, 3425), (3430, 3448), (3450, 3455),
    (3461, 3478), (3482, 3505), (3507, 3515), (3517, 3517), (3520, 3526), (3558, 3567),
    (3585, 3632), (3634, 3635), (3648, 3654), (3664, 3673), (3713, 3714), (3716, 3716),
    (3718, 3722), (3724, 3747), (3749, 3749), (3751, 3760), (3762, 3763), (3773, 3773),
    (3776, 3780), (3782, 3782), (3792, 3801), (3804, 3807), (3840, 3840), (3872, 3891),
    (3904, 3911), (3913, 3948), (3976, 3980), (4096, 4138), (4159, 4169), (4176, 4181),
    (4186, 4189), (4193, 4193), (4197, 4198), (4206, 4208), (4213, 4225), (4238, 4238),
    (4240, 4249), (4256, 4293), (4295, 4295), (4301, 4301), (4304, 4346), (4348, 4680),
    (4682, 4685), (4688, 4694), (4696, 4696), (4698, 4701), (4704, 4744), (4746, 4749),
    (4752, 4784), (4786, 4789), (4792, 4798), (4800, 4800), (4802, 4805), (4808, 4822),
    (4824, 4880), (4882, 4885), (4888, 4954), (4969, 4988), (4992, 5007), (5024, 5109),
    (5112, 5117), (5121, 5740), (5743, 5759), (5761, 5786), (5792, 5866), (5870, 5880),
    (5888, 5905), (5919, 5937), (5952, 5969), (5984, 5996), (5998, 6000), (6016, 6067),
    (6103, 6103), (6108, 6108), (6112, 6121), (6128, 6137), (6160, 6169), (6176, 6264),
    (6272, 6276), (6279, 6312), (6314, 6314), (6320, 6389), (6400, 6430), (6470, 6509),
    (6512, 6516), (6528, 6571), (6576, 6601), (6608, 6618), (6656, 6678), (6688, 6740),
    (6784, 6793), (6800, 6809), (6823, 6823), (6917, 6963), (6981, 6988), (6992, 7001),
    (7043, 7072), (7086, 7141), (7168, 7203), (7232, 7241), (7245, 7293), (7296, 7304),
    (7312, 7354), (7357, 7359), (7401, 7404), (7406, 7411), (7413, 7414), (7418, 7418),
    (7424, 7615), (7680, 7957), (7960, 7965), (7968, 8005), (8008, 8013), (8016, 8023),
    (8025, 8025), (8027, 8027), (8029, 8029), (8031, 8061), (8064, 8116), (8118, 8124),
    (8126, 8126), (8130, 8132), (8134, 8140), (8144, 8147), (8150, 8155), (8160, 8172),
    (8178, 8180), (8182, 8188), (8304, 8305), (8308, 8313), (8319, 8329), (8336, 8348),
    (8450, 8450), (8455, 8455), (8458, 8467), (8469, 8469), (8473, 8477), (8484, 8484),
    (8486, 8486), (8488, 8488), (8490, 8493), (8495, 8505), (8508, 8511), (8517, 8521),
    (8526, 8526), (8528, 8585), (9312, 9371), (9450, 9471), (10102, 10131), (11264, 11492),
    (11499, 11502), (11506, 11507), (11517, 11517), (11520, 11557), (11559, 11559), (11565, 11565),
    (11568, 11623), (11631, 11631), (11648, 11670), (11680, 11686), (11688, 11694), (11696, 11702),
    (11704, 11710), (11712, 11718), (11720, 11726), (11728, 11734), (11736, 11742), (11823, 11823),
    (12293, 12295), (12321, 12329), (12337, 12341), (12344, 12348), (12353, 12438), (12445, 12447),
    (12449, 12538), (12540, 12543), (12549, 12591), (12593, 12686), (12690, 12693), (12704, 12735),
    (12784, 12799), (12832, 12841), (12872, 12879), (12881, 12895), (12928, 12937), (12977, 12991),
    (13312, 19903), (19968, 42124), (42192, 42237), (42240, 42508), (42512, 42539), (42560, 42606),
    (42623, 42653), (42656, 42735), (42775, 42783), (42786, 42888), (42891, 42954), (42960, 42961),
    (42963, 42963), (42965, 42969), (42994, 43009), (43011, 43013), (43015, 43018), (43020, 43042),
    (43056, 43061), (43072, 43123), (43138, 43187), (43216, 43225), (43250, 43255), (43259, 43259),
    (43261, 43262), (43264, 43301), (43312, 43334), (43360, 43388), (43396, 43442), (43471, 43481),
    (43488, 43492), (43494, 43518), (43520, 43560), (43584, 43586), (43588, 43595), (43600, 43609),
    (43616, 43638), (43642, 43642), (43646, 43695), (43697, 43697), (43701, 43702), (43705, 43709),
    (43712, 43712), (43714, 43714), (43739, 43741), (43744, 43754), (43762, 43764), (43777, 43782),
    (43785, 43790), (43793, 43798), (43808, 43814), (43816, 43822), (43824, 43866), (43868, 43881),
    (43888, 44002), (44016, 44025), (44032, 55203), (55216, 55238), (55243, 55291), (63744, 64109),
    (64112, 64217), (64256, 64262), (64275, 64279), (64285, 64285), (64287, 64296), (64298, 64310),
    (64312, 64316), (64318, 64318), (64320, 64321), (64323, 64324), (64326, 64433), (64467, 64829),
    (64848, 64911), (64914, 64967), (65008, 65019), (65136, 65140), (65142, 65276), (65296, 65305),
    (65313, 65338), (65345, 65370), (65382, 65470), (65474, 65479), (65482, 65487), (65490, 65495),
    (65498, 65500), (65536, 65547), (65549, 65574), (65576, 65594), (65596, 65597), (65599, 65613),
    (65616, 65629), (65664, 65786), (65799, 65843), (65856, 65912), (65930, 65931), (66176, 66204),
    (66208, 66256), (66273, 66299), (66304, 66339), (66349, 66378), (66384, 66421), (66432, 66461),
    (66464, 66499), (66504, 66511), (66513, 66517), (66560, 66717), (66720, 66729), (66736, 66771),
    (66776, 66811), (66816, 66855), (66864, 66915), (66928, 66938), (66940, 66954), (66956, 66962),
    (66964, 66965), (66967, 66977), (66979, 66993), (66995, 67001), (67003, 67004), (67072, 67382),
    (67392, 67413), (67424, 67431), (67456, 67461), (67463, 67504), (67506, 67514), (67584, 67589),
    (67592, 67592), (67594, 67637), (67639, 67640), (67644, 67644), (67647, 67669), (67672, 67702),
    (67705, 67742), (67751, 67759), (67808, 67826), (67828, 67829), (67835, 67867), (67872, 67897),
    (67968, 68023), (68028, 68047), (68050, 68096), (68112, 68115), (68117, 68119), (68121, 68149),
    (68160, 68168), (68192, 68222), (68224, 68255), (68288, 68295), (68297, 68324), (68331, 68335),
    (68352, 68405), (68416, 68437), (68440, 68466), (68472, 68497), (68521, 68527), (68608, 68680),
    (68736, 68786), (68800, 68850), (68858, 68899), (68912, 68921), (69216, 69246), (69248, 69289),
    (69296, 69297), (69376, 69415), (69424, 69445), (69457, 69460), (69488, 69505), (69552, 69579),
    (69600, 69622), (69635, 69687), (69714, 69743), (69745, 69746), (69749, 69749), (69763, 69807),
    (69840, 69864), (69872, 69881), (69891, 69926), (69942, 69951), (69956, 69956), (69959, 69959),
    (69968, 70002), (70006, 70006), (70019, 70066), (70081, 70084), (70096, 70106), (70108, 70108),
    (70113, 70132), (70144, 70161), (70163, 70187), (70272, 70278), (70280, 70280), (70282, 70285),
    (70287, 70301), (70303, 70312), (70320, 70366), (70384, 70393), (70405, 70412), (70415, 70416),
    (70419, 70440), (70442, 70448), (70450, 70451), (70453, 70457), (70461, 70461), (70480, 70480),
    (70493, 70497), (70656, 70708), (70727, 70730), (70736, 70745), (70751, 70753), (70784, 70831),
    (70852, 70853), (70855, 70855), (70864, 70873), (71040, 71086), (71128, 71131), (71168, 71215),
    (71236, 71236), (71248, 71257), (71296, 71338), (71352, 71352), (71360, 71369), (71424, 71450),
    (71472, 71483), (71488, 71494), (71680, 71723), (71840, 71922), (71935, 71942), (71945, 71945),
    (71948, 71955), (71957, 71958), (71960, 71983), (71999, 71999), (72001, 72001), (72016, 72025),
    (72096, 72103), (72106, 72144), (72161, 72161), (72163, 72163), (72192, 72192), (72203, 72242),
    (72250, 72250), (72272, 72272), (72284, 72329), (72349, 72349), (72368, 72440), (72704, 72712),
    (72714, 72750), (72768, 72768), (72784, 72812), (72818, 72847), (72960, 72966), (72968, 72969),
    (72971, 73008), (73030, 73030), (73040, 73049), (73056, 73061), (73063, 73064), (73066, 73097),
    (73112, 73112), (73120, 73129), (73440, 73458), (73648, 73648), (73664, 73684), (73728, 74649),
    (74752, 74862), (74880, 75075), (77712, 77808), (77824, 78894), (82944, 83526), (92160, 92728),
    (92736, 92766), (92768, 92777), (92784, 92862), (92864, 92873), (92880, 92909), (92928, 92975),
    (92992, 92995), (93008, 93017), (93019, 93025), (93027, 93047), (93053, 93071), (93760, 93846),
    (93952, 94026), (94032, 94032), (94099, 94111), (94176, 94177), (94179, 94179), (94208, 100343),
    (100352, 101589), (101632, 101640), (110576, 110579), (110581, 110587), (110589, 110590), (110592, 110882),
    (110928, 110930), (110948, 110951), (110960, 111355), (113664, 113770), (113776, 113788), (113792, 113800),
    (113808, 113817), (119520, 119539), (119648, 119672), (119808, 119892), (119894, 119964), (119966, 119967),
    (119970, 119970), (119973, 119974), (119977, 119980), (119982, 119993), (119995, 119995), (119997, 120003),
    (120005, 120069), (120071, 120074), (120077, 120084), (120086, 120092), (120094, 120121), (120123, 120126),
    (120128, 120132), (120134, 120134), (120138, 120144), (120146, 120485), (120488, 120512), (120514, 120538),
    (120540, 120570), (120572, 120596), (120598, 120628), (120630, 120654), (120656, 120686), (120688, 120712),
    (120714, 120744), (120746, 120770), (120772, 120779), (120782, 120831), (122624, 122654), (123136, 123180),
    (123191, 123197), (123200, 123209), (123214, 123214), (123536, 123565), (123584, 123627), (123632, 123641),
    (124896, 124902), (124904, 124907), (124909, 124910), (124912, 124926), (124928, 125124), (125127, 125135),
    (125184, 125251), (125259, 125259), (125264, 125273), (126065, 126123), (126125, 126127), (126129, 126132),
    (126209, 126253), (126255, 126269), (126464, 126467), (126469, 126495), (126497, 126498), (126500, 126500),
    (126503, 126503), (126505, 126514), (126516, 126519), (126521, 126521), (126523, 126523), (126530, 126530),
    (126535, 126535), (126537, 126537), (126539, 126539), (126541, 126543), (126545, 126546), (126548, 126548),
    (126551, 126551), (126553, 126553), (126555, 126555), (126557, 126557), (126559, 126559), (126561, 126562),
    (126564, 126564), (126567, 126570), (126572, 126578), (126580, 126583), (126585, 126588), (126590, 126590),
    (126592, 126601), (126603, 126619), (126625, 126627), (126629, 126633), (126635, 126651), (127232, 127244),
    (130032, 130041), (131072, 173791), (173824, 177976), (177984, 178205), (178208, 183969), (183984, 191456),
    (194560, 195101), (196608, 201546)]

/-- Word character in the sense of the pattern's word class. -/
def isWordChar (c : Char) : Bool := inRanges wordRanges c

/-- Interval table of the characters str.strip removes: the code points
satisfying the Unicode whitespace test, including the ASCII-range
separator characters 28-31 and the non-ASCII spaces. -/
def spaceRanges : List (Nat × Nat) :=
  [(9, 13), (28, 32), (133, 133), (160, 160), (5760, 5760),
    (8192, 8202), (8232, 8233), (8239, 8239), (8287, 8287), (12288, 12288)]

/-- Whitespace in the sense of str.strip. -/
def isPySpace (c : Char) : Bool := inRanges spaceRanges c

/-- str.strip: remove leading and trailing whitespace. -/
def pyStrip (s : List Char) : List Char :=
  ((s.dropWhile isPySpace).reverse.dropWhile isPySpace).reverse

/-- True when the text begins with three backticks. -/
def startsTriple : List Char → Bool
  | a :: b :: c :: _ => a == bt && b == bt && c == bt
  | _ => false

/-- Whether three consecutive backticks occur anywhere in the text. -/
def hasTriple : List Char → Bool
  | [] => false
  | c :: t => startsTriple (c :: t) || hasTriple t

/-- Longest prefix of word characters, paired with the remainder.  This is
the backtracking-free residue of the greedy optional group of word
characters followed by a mandatory newline: a shorter run would leave a
word character, never a newline, as the next character. -/
def takeWordRun : List Char → List Char × List Char
  | [] => ([], [])
  | c :: t =>
    if isWordChar c then (c :: (takeWordRun t).1, (takeWordRun t).2)
    else ([], c :: t)

/-- Non-greedy search for the closing triple backtick: the body up to the
first occurrence, and the text after it.  none when no closing fence
exists. -/
def findClose : List Char → Option (List Char × List Char)
  | [] => none
  | c :: t =>
    if startsTriple (c :: t) then some ([], t.drop 2)
    else
      match findClose t with
      | some p => some (c :: p.1, p.2)
      | none => none

/-- One attempted match of the fence pattern at the head of the text:
language run, raw body, and the text after the closing fence. -/
def matchFenceAt (s : List Char) : Option (List Char × List Char × List Char) :=
  if startsTriple s then
    match takeWordRun (s.drop 3) with
    | (run, rest) =>
      match rest with
      | c :: t =>
        if c == '\n' then
          match findClose t with
          | some p => some (run, p.1, p.2)
          | none => none
        else none
      | [] => none
  else none

/-- A code block as produced by extract_code_blocks: a language tag
(possibly empty) and the stripped body. -/
structure CodeBlock where
  language : List Char
  code : List Char
deriving DecidableEq

/-- The finditer scan: try the pattern at each position left to right,
resume after the end of each match.  Fuel bounds the recursion; one unit
is spent per position tried, so the length of the text suffices. -/
def scanBlocks : Nat → List Char → List CodeBlock
  | 0, _ => []
  | _ + 1, [] => []
  | fuel + 1, c :: t =>
    match matchFenceAt (c :: t) with
    | some (lang, body, rest) => ⟨lang, pyStrip body⟩ :: scanBlocks fuel rest
    | none => scanBlocks fuel t

/-- ClaudeChatbot.extract_code_blocks (src/app.py lines 62-76). -/
def extract_code_blocks (s : List Char) : List CodeBlock :=
  scanBlocks s.length s

/-- A well-formed-looking fence: opening triple backtick, tag, newline,
body, closing triple backtick. -/
def fenceOf (tag body : List Char) : List Char :=
  bt :: bt :: bt :: (tag ++ '\n' :: (body ++ [bt, bt, bt]))

/-- A complete fence at the head of a text, stated from the pattern
itself rather than from the scanner: the opening triple backtick, a
word-character tag (possibly empty), the mandatory newline, any body, a
closing triple backtick and arbitrary trailing text. -/
def isFenceShape (t : List Char) : Prop :=
  ∃ tag body rest : List Char, (∀ c ∈ tag, isWordChar c = true) ∧
    t = bt :: bt :: bt :: (tag ++ '\n' :: (body ++ [bt, bt, bt] ++ rest))

/-- Message roles. -/
inductive Role
  | user
  | assistant
deriving DecidableEq

/-- One conversation turn, as stored in st.session_state.messages. -/
structure Turn where
  role : Role
  content : List Char
deriving DecidableEq

/-- Model parameters (st.session_state.parameters).  The two float fields
are carried as rationals; the core never computes with them. -/
structure Params where
  model : List Char
  temperature : ℚ
  max_tokens : Nat
  top_p : ℚ
  extended_thinking : Bool
deriving DecidableEq

/-- The default parameter set of ClaudeChatbot.__init__. -/
def default_params : Params :=
  { model := "claude-3-7-sonnet-20250219".data
    temperature := 7 / 10
    max_tokens := 4096
    top_p := 7 / 10
    extended_thinking := false }

/-- The per-session state (st.session_state). -/
structure SessionState where
  messages : List Turn
  api_key : List Char
  parameters : Params
  is_loading : Bool
deriving DecidableEq

/-- User-visible errors raised by the transitions. -/
inductive UiError
  | missingApiKey
  | apiError (msg : List Char)
deriving DecidableEq

/-- The chat-input submission block of create_chat_interface (src/app.py
lines 175-187), as a transition on the session state.  A falsy (empty)
prompt skips the whole block; with no API key an error is shown and
nothing changes; otherwise the user turn is appended and is_loading set. -/
def submit (s : SessionState) (prompt : List Char) : SessionState × Option UiError :=
  if prompt = [] then (s, none)
  else if s.api_key = [] then (s, some UiError.missingApiKey)
  else ({ s with messages := s.messages ++ [⟨Role.user, prompt⟩], is_loading := true }, none)

/-- One content block of a completion response. -/
structure ContentBlock where
  text : List Char
deriving DecidableEq

/-- The completion response payload: a list of content blocks. -/
structure ApiResponse where
  content : List ContentBlock
deriving DecidableEq

/-- Outcome of the external completion call: a response, or a raised
exception with its message. -/
inductive ApiOutcome
  | ok (r : ApiResponse)
  | error (msg : List Char)
deriving DecidableEq

/-- ClaudeChatbot.process_response (src/app.py lines 189-233).  Returns
immediately when not loading.  The try block covers the call and the
indexing response.content[0]; any exception, including the IndexError on
an empty content list, falls to the handler, which surfaces the message
and resets is_loading. -/
def process_response (s : SessionState) (outcome : ApiOutcome) : SessionState × Option UiError :=
  if s.is_loading = false then (s, none)
  else
    match outcome with
    | ApiOutcome.error msg => ({ s with is_loading := false }, some (UiError.apiError msg))
    | ApiOutcome.ok r =>
      match r.content with
      | [] =>
        ({ s with is_loading := false },
          some (UiError.apiError ("list index out of range".data)))
      | block :: _ =>
        ({ s with
            messages := s.messages ++ [⟨Role.assistant, block.text⟩]
            is_loading := false }, none)

/-- The clear-chat button (src/app.py lines 150-152): the message list is
reassigned to empty; nothing else is touched. -/
def clear_chat (s : SessionState) : SessionState :=
  { s with messages := [] }

/-- Rendering of a role as the string stored in a message record. -/
def role_str : Role → List Char
  | Role.user => "user".data
  | Role.assistant => "assistant".data

/-- ClaudeChatbot.save_chat_history (src/app.py lines 84-92): the
exported artifact content is json.dump of st.session_state.messages, an
ordered sequence of role-content records and nothing else. -/
def save_chat_history (s : SessionState) : List (List Char × List Char) :=
  s.messages.map (fun t => (role_str t.role, t.content))

/-! ## Basic facts about the scanner -/

theorem scanBlocks_nil (f : Nat) : scanBlocks f [] = [] := by
  cases f <;> rfl

theorem startsTriple_head {c : Char} {u : List Char}
    (h : startsTriple (c :: u) = true) : c = bt := by
  match u with
  | [] => simp [startsTriple] at h
  | [d] => simp [startsTriple] at h
  | d :: e :: v =>
    simp [startsTriple] at h
    exact h.1.1

theorem startsTriple_false_head {c : Char} (t : List Char) (h : c ≠ bt) :
    startsTriple (c :: t) = false := by
  match t with
  | [] => rfl
  | [d] => rfl
  | d :: e :: v => simp [startsTriple, h]

theorem startsTriple_false_second {c : Char} (a : Char) (t : List Char) (h : c ≠ bt) :
    startsTriple (a :: c :: t) = false := by
  match t with
  | [] => rfl
  | d :: v => simp [startsTriple, h]

theorem startsTriple_false_third {c : Char} (a b : Char) (t : List Char) (h : c ≠ bt) :
    startsTriple (a :: b :: c :: t) = false := by
  simp [startsTriple, h]

theorem startsTriple_shape {s : List Char} (h : startsTriple s = true) :
    ∃ u, s = bt :: bt :: bt :: u := by
  match s with
  | [] => simp [startsTriple] at h
  | [a] => simp [startsTriple] at h
  | [a, b] => simp [startsTriple] at h
  | a :: b :: c :: u =>
    simp [startsTriple] at h
    exact ⟨u, by rw [h.1.1, h.1.2, h.2]⟩

theorem takeWordRun_eq_append (a : List Char) :
    (takeWordRun a).1 ++ (takeWordRun a).2 = a := by
  induction a with
  | nil => rfl
  | cons c t ih =>
    by_cases h : isWordChar c = true
    · simp [takeWordRun, h, ih]
    · simp only [Bool.not_eq_true] at h
      simp [takeWordRun, h]

theorem matchFenceAt_startsTriple {s : List Char} {x : List Char × List Char × List Char}
    (h : matchFenceAt s = some x) : startsTriple s = true := by
  by_cases hs : startsTriple s = true
  · exact hs
  · simp only [Bool.not_eq_true] at hs
    simp [matchFenceAt, hs] at h

theorem scan_all_none (f : Nat) :
    ∀ s, (∀ p t, p ++ t = s → matchFenceAt t = none) → scanBlocks f s = [] := by
  induction f with
  | zero => intro s _; rfl
  | succ f ih =>
    intro s h
    match s with
    | [] => rfl
    | c :: t =>
      have h0 : matchFenceAt (c :: t) = none := h [] (c :: t) rfl
      simp only [scanBlocks, h0]
      exact ih t (fun p u hp => h (c :: p) u (by rw [List.cons_append, hp]))

/-! ## The extractor on a single well-formed fence -/

theorem takeWordRun_word_newline (r : List Char) (tag : List Char)
    (hw : ∀ c ∈ tag, isWordChar c = true) :
    takeWordRun (tag ++ '\n' :: r) = (tag, '\n' :: r) := by
  induction tag with
  | nil =>
    have hnl : isWordChar '\n' = false := by decide
    simp [takeWordRun, hnl]
  | cons c tg ih =>
    have hc : isWordChar c = true := hw c (List.mem_cons_self c tg)
    have ih2 := ih (fun d hd => hw d (List.mem_cons_of_mem c hd))
    simp [takeWordRun, hc, ih2]

theorem findClose_complete (b : List Char) (h1 : hasTriple b = false)
    (h2 : b.getLast? ≠ some bt) :
    findClose (b ++ [bt, bt, bt]) = some (b, []) := by
  induction b with
  | nil => decide
  | cons c b2 ih =>
    simp only [hasTriple, Bool.or_eq_false_iff] at h1
    have hns : startsTriple (c :: (b2 ++ [bt, bt, bt])) = false := by
      match b2 with
      | [] =>
        have hc : c ≠ bt := by
          intro hc
          exact h2 (by simp [hc])
        exact startsTriple_false_head _ hc
      | [d] =>
        have hd : d ≠ bt := by
          intro hd
          exact h2 (by simp [hd])
        exact startsTriple_false_second _ _ hd
      | d :: e :: b3 =>
        have := h1.1
        simp [startsTriple] at this ⊢
        exact this
    have hlast2 : b2.getLast? ≠ some bt := by
      match b2 with
      | [] => simp
      | d :: b3 =>
        rw [List.getLast?_cons_cons] at h2
        exact h2
    have ih2 := ih h1.2 hlast2
    rw [List.cons_append]
    simp only [findClose, hns, Bool.false_eq_true, if_false, ih2]

theorem matchFenceAt_fence (tag body : List Char)
    (hw : ∀ c ∈ tag, isWordChar c = true)
    (h1 : hasTriple body = false) (h2 : body.getLast? ≠ some bt) :
    matchFenceAt (fenceOf tag body) = some (tag, body, []) := by
  have hst : startsTriple (fenceOf tag body) = true := by
    simp [fenceOf, startsTriple]
  have hdrop : (fenceOf tag body).drop 3 = tag ++ '\n' :: (body ++ [bt, bt, bt]) := rfl
  simp only [matchFenceAt, hst, if_true, hdrop,
    takeWordRun_word_newline _ tag hw, beq_self_eq_true,
    findClose_complete body h1 h2]

theorem scanBlocks_succ_match (s : List Char) (l b : List Char) (f : Nat)
    (h : matchFenceAt s = some (l, b, [])) :
    scanBlocks (f + 1) s = [⟨l, pyStrip b⟩] := by
  obtain ⟨u, rfl⟩ := startsTriple_shape (matchFenceAt_startsTriple h)
  simp [scanBlocks, h, scanBlocks_nil]

theorem extract_fence (tag body : List Char)
    (hw : ∀ c ∈ tag, isWordChar c = true)
    (h1 : hasTriple body = false) (h2 : body.getLast? ≠ some bt) :
    extract_code_blocks (fenceOf tag body) = [⟨tag, pyStrip body⟩] := by
  have hlen : (fenceOf tag body).length =
      ((tag ++ '\n' :: (body ++ [bt, bt, bt])).length + 2) + 1 := by
    simp [fenceOf]
  show scanBlocks (fenceOf tag body).length (fenceOf tag body) = _
  rw [hlen]
  exact scanBlocks_succ_match _ _ _ _ (matchFenceAt_fence tag body hw h1 h2)

/-! ## A position matches exactly when a complete fence starts there -/

theorem takeWordRun_fst_word (a : List Char) :
    ∀ c ∈ (takeWordRun a).1, isWordChar c = true := by
  induction a with
  | nil => intro c hc; exact absurd hc (List.not_mem_nil c)
  | cons d t ih =>
    intro c hc
    by_cases hd : isWordChar d = true
    · simp only [takeWordRun, hd, if_true] at hc
      rcases List.mem_cons.mp hc with h | h
      · rw [h]; exact hd
      · exact ih c h
    · simp only [Bool.not_eq_true] at hd
      simp only [takeWordRun, hd, Bool.false_eq_true, if_false] at hc
      exact absurd hc (List.not_mem_nil c)

theorem findClose_decomp (u : List Char) :
    ∀ p, findClose u = some p → u = p.1 ++ [bt, bt, bt] ++ p.2 := by
  induction u with
  | nil => intro p h; simp [findClose] at h
  | cons c t ih =>
    intro p h
    by_cases hs : startsTriple (c :: t) = true
    · simp only [findClose, hs, if_true, Option.some.injEq] at h
      obtain ⟨u2, he⟩ := startsTriple_shape hs
      have hc : c = bt := (List.cons_eq_cons.mp he).1
      have ht : t = bt :: bt :: u2 := (List.cons_eq_cons.mp he).2
      rw [← h, hc, ht]
      simp
    · simp only [Bool.not_eq_true] at hs
      simp only [findClose, hs, Bool.false_eq_true, if_false] at h
      cases hft : findClose t with
      | none => rw [hft] at h; simp at h
      | some q =>
        rw [hft] at h
        simp only [Option.some.injEq] at h
        have ht := ih q hft
        rw [← h]
        show c :: t = (c :: q.1) ++ [bt, bt, bt] ++ q.2
        rw [ht]
        simp

theorem findClose_isSome (body rest : List Char) :
    ∃ p, findClose (body ++ [bt, bt, bt] ++ rest) = some p := by
  induction body with
  | nil =>
    refine ⟨([], rest), ?_⟩
    have hs : startsTriple (bt :: bt :: bt :: rest) = true := by simp [startsTriple]
    show findClose (bt :: bt :: bt :: rest) = some ([], rest)
    rw [findClose, if_pos hs]
    simp
  | cons c b ih =>
    obtain ⟨p, hp⟩ := ih
    rw [List.cons_append, List.cons_append]
    by_cases hs : startsTriple (c :: (b ++ [bt, bt, bt] ++ rest)) = true
    · refine ⟨([], (b ++ [bt, bt, bt] ++ rest).drop 2), ?_⟩
      rw [findClose, if_pos hs]
    · refine ⟨(c :: p.1, p.2), ?_⟩
      rw [findClose, if_neg hs, hp]

theorem isFenceShape_of_match {t : List Char} {x : List Char × List Char × List Char}
    (h : matchFenceAt t = some x) : isFenceShape t := by
  have hst := matchFenceAt_startsTriple h
  obtain ⟨u, rfl⟩ := startsTriple_shape hst
  have hdrop : (bt :: bt :: bt :: u).drop 3 = u := rfl
  simp only [matchFenceAt, hst, if_true, hdrop] at h
  rcases htw : takeWordRun u with ⟨run, rest⟩
  rw [htw] at h
  match rest with
  | [] => simp at h
  | d :: t2 =>
    simp only [beq_iff_eq, Option.ite_none_right_eq_some] at h
    obtain ⟨hd, h⟩ := h
    cases hfc : findClose t2 with
    | none => rw [hfc] at h; exact absurd h (by simp)
    | some q =>
      have hu : run ++ d :: t2 = u := by
        have he := takeWordRun_eq_append u
        rw [htw] at he
        exact he
      have hword : ∀ c ∈ run, isWordChar c = true := by
        intro c hc
        apply takeWordRun_fst_word u
        rw [htw]
        exact hc
      have hdec := findClose_decomp t2 q hfc
      refine ⟨run, q.1, q.2, hword, ?_⟩
      rw [← hu, hd, hdec]

theorem isFenceShape_iff (t : List Char) : isFenceShape t ↔ matchFenceAt t ≠ none := by
  constructor
  · rintro ⟨tag, body, rest, hword, rfl⟩
    have hst : startsTriple
        (bt :: bt :: bt :: (tag ++ '\n' :: (body ++ [bt, bt, bt] ++ rest))) = true := by
      simp [startsTriple]
    obtain ⟨p, hp⟩ := findClose_isSome body rest
    have hdrop : (bt :: bt :: bt :: (tag ++ '\n' :: (body ++ [bt, bt, bt] ++ rest))).drop 3
        = tag ++ '\n' :: (body ++ [bt, bt, bt] ++ rest) := rfl
    simp only [matchFenceAt, hst, if_true, hdrop,
      takeWordRun_word_newline _ tag hword, beq_self_eq_true, hp]
    simp
  · intro h
    cases hm : matchFenceAt t with
    | none => exact absurd hm h
    | some x => exact isFenceShape_of_match hm

/-! ## The extractor on a fence with a malformed language tag -/

theorem matchFenceAt_false_start {s : List Char} (h : startsTriple s = false) :
    matchFenceAt s = none := by
  simp [matchFenceAt, h]

theorem matchFenceAt_no_newline {s : List Char} {w r : List Char} {d : Char}
    (hst : startsTriple s = true) (htw : takeWordRun (s.drop 3) = (w, d :: r))
    (hd : d ≠ '\n') : matchFenceAt s = none := by
  simp only [matchFenceAt, hst, if_true, htw]
  simp [hd]

theorem takeWordRun_stuck_append (a : List Char) :
    ∀ (b w r : List Char) (d : Char), takeWordRun a = (w, d :: r) →
      takeWordRun (a ++ b) = (w, d :: (r ++ b)) := by
  induction a with
  | nil =>
    intro b w r d h
    simp [takeWordRun] at h
  | cons c a2 ih =>
    intro b w r d h
    by_cases hc : isWordChar c = true
    · simp only [takeWordRun, hc, if_true] at h
      obtain ⟨hw, hr⟩ := Prod.mk.injEq .. ▸ h
      have ha2 : takeWordRun a2 = ((takeWordRun a2).1, d :: r) := by
        rw [← hr]
      have := ih b (takeWordRun a2).1 r d ha2
      rw [List.cons_append]
      simp only [takeWordRun, hc, if_true, this, ← hw]
    · simp only [Bool.not_eq_true] at hc
      simp only [takeWordRun, hc, Bool.false_eq_true, if_false] at h
      obtain ⟨hw, hr⟩ := Prod.mk.injEq .. ▸ h
      rw [List.cons_append]
      simp only [takeWordRun, hc, Bool.false_eq_true, if_false, ← hw]
      rw [← List.cons_append, hr, List.cons_append]

theorem takeWordRun_rest_ne (a : List Char)
    (h : ∃ c ∈ a, isWordChar c = false) : (takeWordRun a).2 ≠ [] := by
  induction a with
  | nil =>
    obtain ⟨c, hc, _⟩ := h
    exact absurd hc (List.not_mem_nil c)
  | cons c a2 ih =>
    by_cases hc : isWordChar c = true
    · simp only [takeWordRun, hc, if_true]
      apply ih
      obtain ⟨d, hd, hdw⟩ := h
      rcases List.mem_cons.mp hd with hdc | hd2
      · rw [hdc] at hdw; rw [hdw] at hc; exact absurd hc (by simp)
      · exact ⟨d, hd2, hdw⟩
    · simp only [Bool.not_eq_true] at hc
      simp [takeWordRun, hc]

theorem noMatch_tail (u : List Char) :
    (∀ c ∈ u, c ≠ bt) → ∀ p t, p ++ t = u ++ [bt, bt, bt] → matchFenceAt t = none := by
  induction u with
  | nil =>
    intro _ p t hpt
    have ht : t = [bt, bt, bt] ∨ t = [bt, bt] ∨ t = [bt] ∨ t = [] := by
      rcases p with _ | ⟨a, p⟩
      · left; simpa using hpt
      · rcases p with _ | ⟨b, p⟩
        · right; left
          simp at hpt
          exact hpt.2
        · rcases p with _ | ⟨c, p⟩
          · right; right; left
            simp at hpt
            exact hpt.2.2
          · right; right; right
            simp at hpt
            exact hpt.2.2.2.2
    rcases ht with h | h | h | h <;> subst h <;> decide
  | cons c u2 ih =>
    intro h p t hpt
    rcases p with _ | ⟨a, p2⟩
    · have ht : t = c :: (u2 ++ [bt, bt, bt]) := by simpa using hpt
      subst ht
      exact matchFenceAt_false_start
        (startsTriple_false_head _ (h c (List.mem_cons_self c u2)))
    · rw [List.cons_append, List.cons_append] at hpt
      have h2 : p2 ++ t = u2 ++ [bt, bt, bt] := (List.cons_eq_cons.mp hpt).2
      exact ih (fun d hd => h d (List.mem_cons_of_mem c hd)) p2 t h2

theorem noMatch_fence (tag body : List Char)
    (hw : ∃ c ∈ tag, isWordChar c = false)
    (hn : ∀ c ∈ tag, c ≠ '\n')
    (htb : ∀ c ∈ tag, c ≠ bt)
    (hbb : ∀ c ∈ body, c ≠ bt) :
    ∀ p t, p ++ t = fenceOf tag body → matchFenceAt t = none := by
  intro p t hpt
  rcases p with _ | ⟨a, _ | ⟨b, _ | ⟨c, p4⟩⟩⟩
  · -- the whole fence: the tag run is interrupted by a non-word,
    -- non-newline character, so the mandatory newline never matches
    have ht : t = fenceOf tag body := by simpa using hpt
    subst ht
    have hst : startsTriple (fenceOf tag body) = true := by
      simp [fenceOf, startsTriple]
    cases h2 : (takeWordRun tag).2 with
    | nil => exact absurd h2 (takeWordRun_rest_ne tag hw)
    | cons d r =>
      have htw : takeWordRun tag = ((takeWordRun tag).1, d :: r) := by rw [← h2]
      have hstuck := takeWordRun_stuck_append tag ('\n' :: (body ++ [bt, bt, bt]))
        (takeWordRun tag).1 r d htw
      have hdmem : d ∈ tag := by
        have hsplit := takeWordRun_eq_append tag
        rw [h2] at hsplit
        rw [← hsplit]
        exact List.mem_append_right _ (List.mem_cons_self d r)
      have hdrop : (fenceOf tag body).drop 3 = tag ++ '\n' :: (body ++ [bt, bt, bt]) := rfl
      exact matchFenceAt_no_newline hst (by rw [hdrop, hstuck]) (hn d hdmem)
  · -- one backtick consumed: the third character scanned is not a backtick
    have ht : t = bt :: bt :: (tag ++ '\n' :: (body ++ [bt, bt, bt])) := by
      simp [fenceOf] at hpt
      exact hpt.2
    subst ht
    match htag : tag with
    | [] =>
      exact matchFenceAt_false_start (startsTriple_false_third _ _ _ (by decide))
    | c0 :: tg2 =>
      exact matchFenceAt_false_start
        (startsTriple_false_third _ _ _ (htb c0 (List.mem_cons_self c0 tg2)))
  · -- two backticks consumed: the second character scanned is not a backtick
    have ht : t = bt :: (tag ++ '\n' :: (body ++ [bt, bt, bt])) := by
      simp [fenceOf] at hpt
      exact hpt.2.2
    subst ht
    match htag : tag with
    | [] =>
      exact matchFenceAt_false_start (startsTriple_false_second _ _ (by decide))
    | c0 :: tg2 =>
      exact matchFenceAt_false_start
        (startsTriple_false_second _ _ (htb c0 (List.mem_cons_self c0 tg2)))
  · -- all three opening backticks consumed: only the closing fence is left
    -- somewhere behind backtick-free text, and nothing follows it
    have h2 : p4 ++ t = (tag ++ '\n' :: body) ++ [bt, bt, bt] := by
      simp [fenceOf] at hpt
      rw [hpt.2.2.2, List.append_assoc, List.cons_append]
    refine noMatch_tail (tag ++ '\n' :: body) ?_ p4 t h2
    intro x hx
    rcases List.mem_append.mp hx with hx1 | hx2
    · exact htb x hx1
    · rcases List.mem_cons.mp hx2 with hx3 | hx4
      · rw [hx3]; decide
      · exact hbb x hx4

/-! ## Claims -/

/-- C1, counterexample to the claim as stated: the body consisting of two
backticks contains no triple backtick, yet the extractor returns the
block with empty code, not with the trimmed body, because the body's
trailing backticks merge with the closing fence and the non-greedy match
closes early. -/
theorem claim1_counterexample :
    extract_code_blocks (fenceOf [] ("``".data)) ≠ [⟨[], pyStrip ("``".data)⟩]
      ∧ extract_code_blocks (fenceOf [] ("``".data)) = [⟨[], []⟩] := by
  constructor
  · decide
  · decide

/-- C1 (amended): for a language tag among the empty tag, powershell and
batch, and a body containing no triple backtick and not ending in a
backtick, extract_code_blocks on the single well-formed fence returns
exactly one block carrying that tag and the body with surrounding
whitespace stripped; and on the concrete scenario input the extractor
returns the single powershell block with code Get-Process. -/
theorem claim1_single_fence :
    (∀ tag body : List Char,
      (tag = [] ∨ tag = "powershell".data ∨ tag = "batch".data) →
      hasTriple body = false → body.getLast? ≠ some bt →
      extract_code_blocks (fenceOf tag body) = [⟨tag, pyStrip body⟩])
    ∧ extract_code_blocks ("Here:\n```powershell\nGet-Process\n```\nDone.".data)
        = [⟨"powershell".data, "Get-Process".data⟩] := by
  constructor
  · intro tag body htag h1 h2
    apply extract_fence tag body ?_ h1 h2
    rcases htag with h | h | h <;> subst h <;> decide
  · decide

/-- C1 witness: the amended statement applied to the powershell tag with
the scenario body. -/
theorem claim1_single_fence_instance :
    extract_code_blocks (fenceOf ("powershell".data) ("Get-Process\n".data))
      = [⟨"powershell".data, pyStrip ("Get-Process\n".data)⟩] :=
  claim1_single_fence.1 ("powershell".data) ("Get-Process\n".data)
    (Or.inr (Or.inl rfl)) (by decide) (by decide)

/-- C2, counterexample to the claim as stated: with is_loading already
true (AwaitingResponse) and a key configured, a further submit appends a
second user turn at once; nothing in the submission block consults
is_loading, so concurrent submits are not rejected. -/
theorem claim2_counterexample :
    (submit ⟨[⟨Role.user, "hi".data⟩], "key".data, default_params, true⟩
        ("again".data)).1.messages
      = [⟨Role.user, "hi".data⟩, ⟨Role.user, "again".data⟩] := by
  decide

/-- C2 (amended): a submit arriving while the session is in
AwaitingResponse (is_loading = true) is not rejected: the submission
block has no is_loading guard, so it appends the user turn and keeps
is_loading set exactly as a submit from Idle would; any serialization of
in-flight requests is left to the surrounding framework. -/
theorem claim2_submit_while_loading (s : SessionState) (p : List Char)
    (hl : s.is_loading = true) (hk : s.api_key ≠ []) (hp : p ≠ []) :
    submit s p
      = ({ s with messages := s.messages ++ [⟨Role.user, p⟩], is_loading := true },
          none) := by
  simp only [submit, if_neg hp, if_neg hk]

/-- C2 witness: the amended statement at a concrete loading session. -/
theorem claim2_submit_while_loading_instance :
    submit ⟨[], "key".data, default_params, true⟩ ("more".data)
      = (⟨[⟨Role.user, "more".data⟩], "key".data, default_params, true⟩, none) :=
  claim2_submit_while_loading _ _ rfl (by decide) (by decide)

/-- C3: when the completion call raises, process_response appends no
turn, surfaces the error message and resets is_loading to false; composed
with a submit, the conversation keeps the user turn and gains no
assistant turn, and the session is back in Idle. -/
theorem claim3_completion_failure :
    (∀ (s : SessionState) (msg : List Char), s.is_loading = true →
      process_response s (ApiOutcome.error msg)
        = ({ s with is_loading := false }, some (UiError.apiError msg)))
    ∧ (∀ (s : SessionState) (p msg : List Char), s.api_key ≠ [] → p ≠ [] →
      process_response (submit s p).1 (ApiOutcome.error msg)
        = ({ s with messages := s.messages ++ [⟨Role.user, p⟩], is_loading := false },
            some (UiError.apiError msg))) := by
  constructor
  · intro s msg hl
    simp [process_response, hl]
  · intro s p msg hk hp
    have h1 : submit s p
        = ({ s with messages := s.messages ++ [⟨Role.user, p⟩], is_loading := true },
            none) := by
      simp only [submit, if_neg hp, if_neg hk]
    rw [h1]
    simp [process_response]

/-- C3 witness: a failed cycle from a concrete idle session. -/
theorem claim3_completion_failure_instance :
    process_response (submit ⟨[], "key".data, default_params, false⟩ ("hi".data)).1
        (ApiOutcome.error ("boom".data))
      = (⟨[⟨Role.user, "hi".data⟩], "key".data, default_params, false⟩,
          some (UiError.apiError ("boom".data))) :=
  claim3_completion_failure.2 _ _ _ (by decide) (by decide)

/-- C4: a submit with no API key configured changes nothing: the state is
returned untouched (conversation, parameters, the flag) and the
missing-key error is signaled instead. -/
theorem claim4_missing_key (s : SessionState) (p : List Char)
    (hk : s.api_key = []) (hp : p ≠ []) :
    submit s p = (s, some UiError.missingApiKey) := by
  simp [submit, if_neg hp, hk]

/-- C4 witness: the statement at a concrete keyless session. -/
theorem claim4_missing_key_instance :
    submit ⟨[⟨Role.assistant, "hello".data⟩], [], default_params, false⟩ ("hi".data)
      = (⟨[⟨Role.assistant, "hello".data⟩], [], default_params, false⟩,
          some UiError.missingApiKey) :=
  claim4_missing_key _ _ rfl (by decide)

/-- C5, counterexample to the claim as stated: a fence whose tag position
holds a non-word character yields no block at all, not a block with
empty language: the mandatory newline after the optional word run never
matches, so the pattern fails at the opening and the claimed block with
empty language does not appear. -/
theorem claim5_counterexample :
    extract_code_blocks ("```c+\nx\n```".data) = [] := by
  decide

/-- C5 (amended): a fenced segment whose language tag contains a
non-word character (the tag containing no newline or backtick, over a
backtick-free body) is not matched at all: the extractor treats the
opening as no fence opening and yields no block for the segment. -/
theorem claim5_malformed_tag (tag body : List Char)
    (hw : ∃ c ∈ tag, isWordChar c = false)
    (hn : ∀ c ∈ tag, c ≠ '\n')
    (htb : ∀ c ∈ tag, c ≠ bt)
    (hbb : ∀ c ∈ body, c ≠ bt) :
    extract_code_blocks (fenceOf tag body) = [] :=
  scan_all_none (fenceOf tag body).length (fenceOf tag body)
    (noMatch_fence tag body hw hn htb hbb)

/-- C5 witness: the amended statement at the concrete malformed tag. -/
theorem claim5_malformed_tag_instance :
    extract_code_blocks (fenceOf ("c+".data) ("x".data)) = [] :=
  claim5_malformed_tag ("c+".data) ("x".data)
    (by decide) (by decide) (by decide) (by decide)

/-- C6: a text containing no complete fence - no position opens a
triple backtick followed by a word tag, a newline, a body and a matching
closing triple backtick - extracts to the empty list.  This covers both
a text with no triple backtick at all and one whose openings are all
unterminated; the extractor is a total function, so no input raises. -/
theorem claim6_no_complete_fence (s : List Char)
    (h : ∀ i < s.length, ¬ isFenceShape (s.drop i)) :
    extract_code_blocks s = [] := by
  show scanBlocks s.length s = []
  apply scan_all_none
  intro p t hpt
  by_cases hlen : p.length < s.length
  · have ht : t = s.drop p.length := by rw [← hpt, List.drop_left]
    have h2 := h p.length hlen
    rw [← ht] at h2
    rw [isFenceShape_iff] at h2
    exact not_ne_iff.mp h2
  · have hlen2 : s.length = p.length + t.length := by
      rw [← hpt, List.length_append]
    have ht : t = [] := List.length_eq_zero.mp (by omega)
    rw [ht]
    rfl

/-- C6 witness: an unterminated opening (with a doubled backtick run)
yields no block. -/
theorem claim6_no_complete_fence_instance :
    extract_code_blocks ("````x\nbody".data) = [] := by
  apply claim6_no_complete_fence
  intro i hi
  rw [isFenceShape_iff, ne_eq, not_not]
  revert i
  decide

/-- C7, counterexample to the claim as stated: a whitespace-only
submission is truthy, so with a key configured it is handled as a normal
message: a user turn is appended and the request cycle starts, against
the claim that every blank (empty or whitespace-only) submission is
ignored. -/
theorem claim7_counterexample :
    submit ⟨[], "key".data, default_params, false⟩ (" ".data)
      = (⟨[⟨Role.user, " ".data⟩], "key".data, default_params, true⟩, none) := by
  rfl

/-- C7 (amended): an empty submission is ignored: the falsy prompt skips
the whole submission block, so no turn is appended, no error is raised
and no request is issued, whatever the rest of the state. -/
theorem claim7_empty_submit (s : SessionState) : submit s [] = (s, none) := by
  simp [submit]

/-- C8: clearing empties the conversation whatever its prior length and
leaves the parameters and the stored credential untouched. -/
theorem claim8_clear (s : SessionState) :
    (clear_chat s).messages = []
      ∧ (clear_chat s).parameters = s.parameters
      ∧ (clear_chat s).api_key = s.api_key :=
  ⟨rfl, rfl, rfl⟩

/-- C9: the exported artifact is exactly the ordered role-content record
sequence of the conversation, so two sessions with the same conversation
and different credentials export identical content; the API key does not
reach the artifact. -/
theorem claim9_export (s1 s2 : SessionState)
    (hm : s1.messages = s2.messages) (hk : s1.api_key ≠ s2.api_key) :
    save_chat_history s1 = save_chat_history s2
      ∧ save_chat_history s1
          = s1.messages.map (fun t => (role_str t.role, t.content)) := by
  constructor
  · simp only [save_chat_history, hm]
  · rfl

/-- C9 witness: two concrete sessions differing only in the key. -/
theorem claim9_export_instance :
    save_chat_history ⟨[⟨Role.user, "hi".data⟩], "key1".data, default_params, false⟩
      = save_chat_history ⟨[⟨Role.user, "hi".data⟩], "key2".data, default_params, false⟩
      ∧ save_chat_history ⟨[⟨Role.user, "hi".data⟩], "key1".data, default_params, false⟩
          = [("user".data, "hi".data)] := by
  have h := claim9_export
    ⟨[⟨Role.user, "hi".data⟩], "key1".data, default_params, false⟩
    ⟨[⟨Role.user, "hi".data⟩], "key2".data, default_params, false⟩
    rfl (by decide)
  exact ⟨h.1, h.2⟩

/-- C10: a completion response with an empty content list does not crash
process_response: the out-of-range indexing is caught by the handler, so
no assistant turn is appended, the error is surfaced and is_loading is
reset to false. -/
theorem claim10_empty_content (s : SessionState) (h : s.is_loading = true) :
    process_response s (ApiOutcome.ok ⟨[]⟩)
      = ({ s with is_loading := false },
          some (UiError.apiError ("list index out of range".data))) := by
  simp [process_response, h]

/-- C10 witness: the statement at a concrete loading session. -/
theorem claim10_empty_content_instance :
    process_response ⟨[⟨Role.user, "hi".data⟩], "key".data, default_params, true⟩
        (ApiOutcome.ok ⟨[]⟩)
      = (⟨[⟨Role.user, "hi".data⟩], "key".data, default_params, false⟩,
          some (UiError.apiError ("list index out of range".data))) :=
  claim10_empty_content _ rfl

end App
